import Mathlib

/-!
Shallow embedding of the backend behavioral logic of the fhirquiz repository:
the Stripe-webhook purchase state machine, the points redemption functions,
the row-level-security enrollment access functions and the certificate
generation functions, each translated from the mock implementations in
src/tests/backend/.  Timestamps are modelled as integers (POSIX seconds, the
representation the Python code converts to and from via datetime), and
Python dicts with a fixed key set are modelled as structures whose optional
or sometimes-absent keys are Option fields.
-/

/-- A purchase record, as built by the webhook handlers in
purchases_state_machine.py.  Keys that some handlers omit or set to None are
Option fields. -/
structure Purchase where
  id : String
  user_id : String
  product_sku : String
  stripe_session_id : Option String := Option.none
  stripe_subscription_id : Option String := Option.none
  status : String
  amount_paid : Option Int := Option.none
  trial_ends_at : Option Int := Option.none
  cancelled_at : Option Int := Option.none
  created_at : Int := 0
deriving DecidableEq, Repr

/-- The fields of the Stripe event payload's data.object that the webhook
handlers read: the object's id, the metadata user_id and product_sku, the
optional trial_end timestamp and the canceled_at timestamp. -/
structure EventObject where
  id : String
  user_id : String
  product_sku : String
  trial_end : Option Int := Option.none
  canceled_at : Int := 0
deriving DecidableEq, Repr

/-- A Stripe webhook event: its id, its type string and its data.object. -/
structure Event where
  id : String
  type : String
  obj : EventObject
deriving DecidableEq, Repr

/-- Python truthiness of an optional integer: None and 0 are falsy,
every other integer is truthy.  This is the semantics of
`if sub.get('trial_end')` on an integer-or-absent key. -/
def intTruthy : Option Int → Bool
  | Option.none => false
  | Option.some n => n != 0

/-- process_webhook from test_checkout_completed_one_time_purchase
(purchases_state_machine.py lines 141-157): on a checkout.session.completed
event it appends an active purchase built from the session to the database
and returns it; on any other event type it returns None and does nothing.
The amount_paid is the literal 29900 from the source.  now is the
datetime.now() timestamp. -/
def process_webhook (now : Int) (e : Event) (db : List Purchase) :
    Option Purchase × List Purchase :=
  if e.type = "checkout.session.completed" then
    let session := e.obj
    let purchase : Purchase :=
      { id := "purchase_" ++ session.id
        user_id := session.user_id
        product_sku := session.product_sku
        stripe_session_id := Option.some session.id
        status := "active"
        amount_paid := Option.some 29900
        created_at := now }
    (Option.some purchase, db ++ [purchase])
  else
    (Option.none, db)

/-- process_subscription_webhook from test_subscription_created_with_trial
(purchases_state_machine.py lines 170-184): on a customer.subscription.created
event it appends a purchase whose status is trialing exactly when the
subscription's trial_end is truthy (present and non-zero), in which case
trial_ends_at is set from that timestamp. -/
def process_subscription_webhook (now : Int) (e : Event) (db : List Purchase) :
    Option Purchase × List Purchase :=
  if e.type = "customer.subscription.created" then
    let sub := e.obj
    let purchase : Purchase :=
      { id := "purchase_" ++ sub.id
        user_id := sub.user_id
        product_sku := sub.product_sku
        stripe_subscription_id := Option.some sub.id
        status := if intTruthy sub.trial_end then "trialing" else "active"
        trial_ends_at := if intTruthy sub.trial_end then sub.trial_end else Option.none
        created_at := now }
    (Option.some purchase, db ++ [purchase])
  else
    (Option.none, db)

/-- The loop body of process_cancellation_webhook: walk the purchase list,
update the first purchase whose stripe_subscription_id matches subId to
cancelled with the given cancelled_at timestamp, and return it. -/
def cancelFirst (subId : String) (t : Int) : List Purchase → Option Purchase × List Purchase
  | [] => (Option.none, [])
  | p :: rest =>
    if p.stripe_subscription_id = Option.some subId then
      let p2 := { p with status := "cancelled", cancelled_at := Option.some t }
      (Option.some p2, p2 :: rest)
    else
      let r := cancelFirst subId t rest
      (r.1, p :: r.2)

/-- process_cancellation_webhook from test_subscription_cancelled_state_transition
(purchases_state_machine.py lines 207-216): on a customer.subscription.deleted
event it finds the first purchase whose stripe_subscription_id equals the
event object's id, marks it cancelled with cancelled_at from the event's
canceled_at, and returns it. -/
def process_cancellation_webhook (e : Event) (db : List Purchase) :
    Option Purchase × List Purchase :=
  if e.type = "customer.subscription.deleted" then
    cancelFirst e.obj.id e.obj.canceled_at db
  else
    (Option.none, db)

/-- The condition of check_trial_expiration's loop (purchases_state_machine.py
lines 303-305): the purchase is trialing, its trial_ends_at is truthy (a
datetime is truthy exactly when it is not None), and it is strictly before
now. -/
def trialExpired (now : Int) (p : Purchase) : Bool :=
  p.status == "trialing" &&
    (match p.trial_ends_at with
     | Option.some t => decide (t < now)
     | Option.none => false)

/-- check_trial_expiration from test_trial_expiration_handling
(purchases_state_machine.py lines 300-307): walk the purchase list, set the
first expired trialing purchase to past_due and return it; the loop returns
as soon as it has transitioned one purchase. -/
def check_trial_expiration (now : Int) : List Purchase → Option Purchase × List Purchase
  | [] => (Option.none, [])
  | p :: rest =>
    if trialExpired now p then
      let p2 := { p with status := "past_due" }
      (Option.some p2, p2 :: rest)
    else
      let r := check_trial_expiration now rest
      (r.1, p :: r.2)

/-- The supported event types of the validating process_webhook in
test_invalid_webhook_ignored (purchases_state_machine.py lines 234-238). -/
def supported_events : List String :=
  ["checkout.session.completed",
   "customer.subscription.created",
   "customer.subscription.deleted"]

/-- process_webhook from test_invalid_webhook_ignored
(purchases_state_machine.py lines 233-244): an event whose type is not in
supported_events returns None; a supported one is processed.  The purchases
database is in scope but never written, so it is passed through. -/
def process_webhook_supported (e : Event) (db : List Purchase) :
    Option String × List Purchase :=
  if e.type ∈ supported_events then
    (Option.some "processed", db)
  else
    (Option.none, db)

/-- The purchase dict built inside process_webhook_idempotent
(purchases_state_machine.py lines 268-272): only id, user_id and status. -/
structure IdemPurchase where
  id : String
  user_id : String
  status : String
deriving DecidableEq, Repr

/-- The state closed over by process_webhook_idempotent: the set of already
processed event ids and the purchases database. -/
structure WebhookState where
  processedEvents : List String
  purchases : List IdemPurchase
deriving DecidableEq, Repr

/-- The three possible returns of process_webhook_idempotent: the dict
with status already_processed, the dict with status processed carrying the
new purchase, or Python's implicit None for a first-seen event of an
unsupported type. -/
inductive IdemResult where
  | alreadyProcessed : IdemResult
  | processed : IdemPurchase → IdemResult
  | nothing : IdemResult
deriving DecidableEq, Repr

/-- process_webhook_idempotent from test_duplicate_webhook_prevention
(purchases_state_machine.py lines 256-274): if the event id was already
seen, return already_processed and change nothing; otherwise record the id,
and on a checkout.session.completed event append a purchase and return it,
else return None. -/
def process_webhook_idempotent (e : Event) (st : WebhookState) :
    IdemResult × WebhookState :=
  if e.id ∈ st.processedEvents then
    (IdemResult.alreadyProcessed, st)
  else
    let st1 : WebhookState := { st with processedEvents := e.id :: st.processedEvents }
    if e.type = "checkout.session.completed" then
      let purchase : IdemPurchase :=
        { id := "purchase_" ++ e.obj.id
          user_id := e.obj.user_id
          status := "active" }
      (IdemResult.processed purchase,
       { st1 with purchases := st1.purchases ++ [purchase] })
    else
      (IdemResult.nothing, st1)

/-- The result dict of redeem_points (points_system.py lines 168-179). -/
structure RedeemResult where
  success : Bool
  error : Option String := Option.none
  item_id : Option String := Option.none
  cost : Option Int := Option.none
  remaining_points : Option Int := Option.none
deriving DecidableEq, Repr

/-- redeem_points from test_points_redemption_decrements_correctly
(points_system.py lines 168-179), returning the result dict together with
the profile's new fhir_points balance. -/
def redeem_points (points : Int) (item : String) (c : Int) : RedeemResult × Int :=
  if points < c then
    ({ success := false, error := Option.some "Insufficient points" }, points)
  else
    ({ success := true
       item_id := Option.some item
       cost := Option.some c
       remaining_points := Option.some (points - c) }, points - c)

/-- The result dict of attempt_redemption (points_system.py lines 192-203). -/
structure AttemptResult where
  success : Bool
  error : Option String := Option.none
  required : Option Int := Option.none
  available : Option Int := Option.none
  shortfall : Option Int := Option.none
deriving DecidableEq, Repr

/-- attempt_redemption from test_insufficient_balance_blocked
(points_system.py lines 192-203). -/
def attempt_redemption (points : Int) (c : Int) : AttemptResult × Int :=
  if points < c then
    ({ success := false
       error := Option.some "Insufficient points"
       required := Option.some c
       available := Option.some points
       shortfall := Option.some (c - points) }, points)
  else
    ({ success := true }, points - c)

/-- The result dict of safe_point_deduction (points_system.py lines 306-314). -/
structure DeductionResult where
  success : Bool
  error : Option String := Option.none
  new_balance : Option Int := Option.none
deriving DecidableEq, Repr

/-- safe_point_deduction from test_negative_points_prevention
(points_system.py lines 306-314): the guard is written as
fhir_points - points_to_deduct < 0 in the source. -/
def safe_point_deduction (points : Int) (deduct : Int) : DeductionResult × Int :=
  if points - deduct < 0 then
    ({ success := false
       error := Option.some "Operation would result in negative balance" }, points)
  else
    ({ success := true, new_balance := Option.some (points - deduct) }, points - deduct)

/-- A session, as used by the RLS tests: the authenticated user's id and role. -/
structure Session where
  user_id : String
  role : String
deriving DecidableEq, Repr

/-- Enrollment progress, a dict with completed_steps and total_steps. -/
structure Progress where
  completed_steps : Nat
  total_steps : Nat
deriving DecidableEq, Repr

/-- An enrollment record from the RLS smoke tests' enrollment database. -/
structure Enrollment where
  id : String
  user_id : String
  course_slug : String
  progress : Progress
  completed : Bool
  certificate_url : Option String := Option.none
deriving DecidableEq, Repr

/-- get_user_enrollments from test_user_can_only_read_own_enrollments
(rls_smoke_tests.py lines 75-81): the RLS policy WHERE user_id =
session.user_id, i.e. a filter of the database by the session's user id. -/
def get_user_enrollments (s : Session) (db : List Enrollment) : List Enrollment :=
  db.filter (fun e => e.user_id == s.user_id)

/-- attempt_cross_user_access from test_cross_user_data_access_blocked
(rls_smoke_tests.py lines 202-217): the RLS-filtered enrollments, further
filtered for the target user's id. -/
def attempt_cross_user_access (s : Session) (target : String)
    (db : List Enrollment) : List Enrollment :=
  (db.filter (fun e => e.user_id == s.user_id)).filter
    (fun e => e.user_id == target)

/-- The updates dict passed to update_enrollment, restricted to the mutable
enrollment fields the tests exercise; an absent key leaves the field alone. -/
structure EnrollmentUpdates where
  progress : Option Progress := Option.none
  completed : Option Bool := Option.none
  certificate_url : Option (Option String) := Option.none
deriving DecidableEq, Repr

/-- Python's enrollment.update(updates): each key present in the updates
dict overwrites the corresponding enrollment field. -/
def applyUpdates (e : Enrollment) (u : EnrollmentUpdates) : Enrollment :=
  { e with
    progress := u.progress.getD e.progress
    completed := u.completed.getD e.completed
    certificate_url := u.certificate_url.getD e.certificate_url }

/-- The result dict of update_enrollment (rls_smoke_tests.py lines 115-131). -/
structure UpdateResult where
  success : Bool
  error : Option String := Option.none
  enrollment : Option Enrollment := Option.none
deriving DecidableEq, Repr

/-- Replace the first enrollment whose id matches eid; this is the effect of
Python mutating in place the dict that next() returned from the list. -/
def replaceFirstById (eid : String) (e2 : Enrollment) :
    List Enrollment → List Enrollment
  | [] => []
  | e :: rest =>
    if e.id == eid then e2 :: rest else e :: replaceFirstById eid e2 rest

/-- update_enrollment from test_user_cannot_update_other_users_enrollments
(rls_smoke_tests.py lines 115-131): find the enrollment by id (Enrollment
not found if absent), deny unless it belongs to the session's user, else
apply the updates in place and return success. -/
def update_enrollment (s : Session) (eid : String) (u : EnrollmentUpdates)
    (db : List Enrollment) : UpdateResult × List Enrollment :=
  match db.find? (fun e => e.id == eid) with
  | Option.none => ({ success := false, error := Option.some "Enrollment not found" }, db)
  | Option.some e =>
    if e.user_id == s.user_id then
      let e2 := applyUpdates e u
      ({ success := true, enrollment := Option.some e2 }, replaceFirstById eid e2 db)
    else
      ({ success := false, error := Option.some "Access denied" }, db)

/-- An enrollment as seen by the certificate tests (certificates.py
fixtures): completed_at is None for an incomplete enrollment. -/
structure CertEnrollment where
  id : String
  user_id : String
  course_slug : String
  progress : Progress
  completed : Bool
  completed_at : Option Int := Option.none
  certificate_url : Option String := Option.none
deriving DecidableEq, Repr

/-- A user profile as used by certificate generation. -/
structure UserProfile where
  id : String
  email : String
  full_name : String
deriving DecidableEq, Repr

/-- Course information as used by certificate generation. -/
structure Course where
  slug : String
  title : String
deriving DecidableEq, Repr

/-- Abstract model of datetime.strftime with a date format: an injective
rendering of the timestamp as a string.  The claims only depend on the
completion date being derived from completed_at, not on the calendar text. -/
def strftimeDate (t : Int) : String :=
  "date-" ++ toString t

/-- The certificate data dict built by generate_certificate
(certificates.py lines 74-80). -/
structure Certificate where
  certificate_id : String
  user_name : String
  course_title : String
  completion_date : String
  verification_url : String
deriving DecidableEq, Repr

/-- The outcome of running generate_certificate under Python semantics:
a certificate dict, the explicit return None, or a raised exception (the
AttributeError from calling strftime on a None completed_at). -/
inductive CertOutcome where
  | ok : Certificate → CertOutcome
  | returnedNone : CertOutcome
  | raised : CertOutcome
deriving DecidableEq, Repr

/-- generate_certificate from test_certificate_generation_only_when_completed
(certificates.py lines 70-82): returns None unless the enrollment is
completed; otherwise builds the certificate dict, formatting completed_at
with strftime, which raises if completed_at is None. -/
def generate_certificate (e : CertEnrollment) (u : UserProfile) (c : Course) :
    CertOutcome :=
  if e.completed = false then
    CertOutcome.returnedNone
  else
    match e.completed_at with
    | Option.none => CertOutcome.raised
    | Option.some t =>
      CertOutcome.ok
        { certificate_id := "cert_" ++ e.id
          user_name := u.full_name
          course_title := c.title
          completion_date := strftimeDate t
          verification_url := "https://app.com/verify/cert_" ++ e.id }

/-- The result dict of attempt_certificate_generation
(certificates.py lines 198-207). -/
structure CertAttemptResult where
  success : Bool
  error : Option String := Option.none
  completion_status : Option Bool := Option.none
  progress : Option Progress := Option.none
  certificate_id : Option String := Option.none
deriving DecidableEq, Repr

/-- attempt_certificate_generation from
test_certificate_not_generated_for_incomplete (certificates.py lines
198-207): failure with an error naming the completion requirement when the
enrollment is not completed, success with the certificate id otherwise. -/
def attempt_certificate_generation (e : CertEnrollment) : CertAttemptResult :=
  if e.completed = false then
    { success := false
      error := Option.some "Course must be completed before certificate generation"
      completion_status := Option.some e.completed
      progress := Option.some e.progress }
  else
    { success := true, certificate_id := Option.some ("cert_" ++ e.id) }

/-- Concrete checkout.session.completed event, from the
stripe_checkout_completed_payload fixture. -/
def evCheckout : Event :=
  { id := "evt_test_checkout"
    type := "checkout.session.completed"
    obj := { id := "cs_test_session"
             user_id := "user-123"
             product_sku := "bootcamp_basic" } }

/-- Concrete unsupported event, from the invalid_payload of
test_invalid_webhook_ignored. -/
def evInvalid : Event :=
  { id := "evt_test_invalid"
    type := "invoice.payment_failed"
    obj := { id := "", user_id := "", product_sku := "" } }

/-- C2: for every event of type checkout.session.completed, process_webhook
appends exactly one new purchase record to the purchases database and
returns it, with status active and with user_id and product_sku taken from
the checkout session's metadata. -/
theorem checkout_completed_creates_active_purchase (now : Int) (e : Event)
    (db : List Purchase) (h : e.type = "checkout.session.completed") :
    (process_webhook now e db).2 = db ++ (process_webhook now e db).1.toList ∧
    ((process_webhook now e db).2).length = db.length + 1 ∧
    (process_webhook now e db).1.map Purchase.status = Option.some "active" ∧
    (process_webhook now e db).1.map Purchase.user_id = Option.some e.obj.user_id ∧
    (process_webhook now e db).1.map Purchase.product_sku = Option.some e.obj.product_sku := by
  simp only [process_webhook, h, if_pos]
  refine ⟨rfl, by simp, rfl, rfl, rfl⟩

/-- Witness for C2 at the fixture payload and the empty database. -/
theorem checkout_completed_creates_active_purchase_witness :
    (process_webhook 5 evCheckout []).2 = [] ++ (process_webhook 5 evCheckout []).1.toList ∧
    ((process_webhook 5 evCheckout []).2).length = ([] : List Purchase).length + 1 ∧
    (process_webhook 5 evCheckout []).1.map Purchase.status = Option.some "active" ∧
    (process_webhook 5 evCheckout []).1.map Purchase.user_id = Option.some evCheckout.obj.user_id ∧
    (process_webhook 5 evCheckout []).1.map Purchase.product_sku
      = Option.some evCheckout.obj.product_sku :=
  checkout_completed_creates_active_purchase 5 evCheckout [] rfl

/-- C6: every event whose type is not among the supported event types is
ignored: the validating process_webhook returns None, and none of the
webhook handlers adds, removes or modifies any purchase record. -/
theorem unsupported_event_type_ignored (now : Int) (e : Event)
    (db : List Purchase) (h : e.type ∉ supported_events) :
    process_webhook_supported e db = (Option.none, db) ∧
    process_webhook now e db = (Option.none, db) ∧
    process_subscription_webhook now e db = (Option.none, db) ∧
    process_cancellation_webhook e db = (Option.none, db) := by
  simp only [supported_events, List.mem_cons, List.not_mem_nil, or_false, not_or] at h
  obtain ⟨h1, h2, h3⟩ := h
  refine ⟨?_, ?_, ?_, ?_⟩
  · simp only [process_webhook_supported, supported_events, List.mem_cons,
      List.not_mem_nil, or_false]
    rw [if_neg (by tauto)]
  · simp only [process_webhook]
    rw [if_neg h1]
  · simp only [process_subscription_webhook]
    rw [if_neg h2]
  · simp only [process_cancellation_webhook]
    rw [if_neg h3]

/-- Witness for C6 at the invoice.payment_failed payload. -/
theorem unsupported_event_type_ignored_witness :
    process_webhook_supported evInvalid [] = (Option.none, []) ∧
    process_webhook 3 evInvalid [] = (Option.none, []) ∧
    process_subscription_webhook 3 evInvalid [] = (Option.none, []) ∧
    process_cancellation_webhook evInvalid [] = (Option.none, []) :=
  unsupported_event_type_ignored 3 evInvalid [] (by decide)

/-- C7: every redemption function enforces the balance check with atomic
failure: a cost above the balance fails with an insufficient-balance error
and leaves the balance unchanged, and otherwise the balance decreases by
exactly the cost and never becomes negative. -/
theorem points_redemption_balance_check (points : Int) (item : String) (c : Int) :
    (points < c →
      redeem_points points item c
          = ({ success := false, error := Option.some "Insufficient points" }, points) ∧
      attempt_redemption points c
          = ({ success := false
               error := Option.some "Insufficient points"
               required := Option.some c
               available := Option.some points
               shortfall := Option.some (c - points) }, points) ∧
      safe_point_deduction points c
          = ({ success := false
               error := Option.some "Operation would result in negative balance" }, points)) ∧
    (c ≤ points →
      (redeem_points points item c).1.success = true ∧
      (redeem_points points item c).2 = points - c ∧
      (attempt_redemption points c).1.success = true ∧
      (attempt_redemption points c).2 = points - c ∧
      (safe_point_deduction points c).1.success = true ∧
      (safe_point_deduction points c).2 = points - c ∧
      0 ≤ points - c) := by
  constructor
  · intro h
    refine ⟨?_, ?_, ?_⟩
    · simp only [redeem_points, if_pos h]
    · simp only [attempt_redemption, if_pos h]
    · simp only [safe_point_deduction]
      rw [if_pos (by omega)]
  · intro h
    have h1 : ¬ points < c := by omega
    have h2 : ¬ points - c < 0 := by omega
    simp only [redeem_points, attempt_redemption, safe_point_deduction,
      if_neg h1, if_neg h2]
    refine ⟨trivial, trivial, trivial, trivial, trivial, trivial, by omega⟩

/-- Witness for C7: an over-budget redemption at balance 25 and cost 100,
and an affordable one at balance 150 and cost 50. -/
theorem points_redemption_balance_check_witness :
    (redeem_points 25 "premium_template" 100).2 = 25 ∧
    (redeem_points 25 "premium_template" 100).1.error = Option.some "Insufficient points" ∧
    (redeem_points 150 "template_001" 50).2 = 100 ∧
    (safe_point_deduction 150 200).2 = 150 ∧
    (attempt_redemption 150 50).1.success = true := by
  have hfail := (points_redemption_balance_check 25 "premium_template" 100).1 (by decide)
  have hok := (points_redemption_balance_check 150 "template_001" 50).2 (by decide)
  have hded := (points_redemption_balance_check 150 "x" 200).1 (by decide)
  have hatt := (points_redemption_balance_check 150 "y" 50).2 (by decide)
  refine ⟨?_, ?_, ?_, ?_, hatt.2.2.1⟩
  · rw [hfail.1]
  · rw [hfail.1]
  · have := hok.2.1
    omega
  · rw [hded.2.2]

/-- The user_profile fixture of certificates.py. -/
def certUser : UserProfile :=
  { id := "user-456", email := "student@test.com", full_name := "John Smith" }

/-- The course_data fixture of certificates.py. -/
def certCourse : Course :=
  { slug := "health-data-bootcamp"
    title := "3-Day Health Data Bootcamp: Ingest, Transform & Operationalize" }

/-- A completed enrollment whose completed_at is None: completed is true but
there is no completion timestamp. -/
def strandedEnrollment : CertEnrollment :=
  { id := "enrollment-123"
    user_id := "user-456"
    course_slug := "health-data-bootcamp"
    progress := { completed_steps := 10, total_steps := 10 }
    completed := true
    completed_at := Option.none }

/-- The completed_enrollment fixture of certificates.py, with completed_at
modelled as a concrete timestamp. -/
def completedEnrollment : CertEnrollment :=
  { id := "enrollment-123"
    user_id := "user-456"
    course_slug := "health-data-bootcamp"
    progress := { completed_steps := 10, total_steps := 10 }
    completed := true
    completed_at := Option.some 1700000000 }

/-- Counterexample to C10: on an enrollment with completed true but
completed_at None, generate_certificate raises (strftime on None) instead
of returning certificate data. -/
theorem certificate_missing_completion_date_counterexample :
    strandedEnrollment.completed = true ∧
    generate_certificate strandedEnrollment certUser certCourse = CertOutcome.raised :=
  ⟨rfl, rfl⟩

/-- C10 amended: generate_certificate returns None if and only if the
enrollment's completed flag is false; when completed is true and a
completion timestamp is present it returns certificate data carrying the
user's full name, the course title, the completion date formatted from
completed_at, and a verification URL derived from the enrollment id (when
completed is true but completed_at is None it raises instead); and
attempt_certificate_generation fails exactly on a non-completed enrollment,
with an error stating the course must be completed. -/
theorem certificate_generation_gated_on_completion (e : CertEnrollment)
    (u : UserProfile) (c : Course) (t : Int) :
    (generate_certificate e u c = CertOutcome.returnedNone ↔ e.completed = false) ∧
    (e.completed = true → e.completed_at = Option.some t →
      generate_certificate e u c = CertOutcome.ok
        { certificate_id := "cert_" ++ e.id
          user_name := u.full_name
          course_title := c.title
          completion_date := strftimeDate t
          verification_url := "https://app.com/verify/cert_" ++ e.id }) ∧
    ((attempt_certificate_generation e).success = false ↔ e.completed = false) ∧
    (e.completed = false →
      (attempt_certificate_generation e).error
        = Option.some "Course must be completed before certificate generation") := by
  refine ⟨?_, ?_, ?_, ?_⟩
  · constructor
    · intro h
      by_contra hc
      have hc2 : e.completed = true := by
        cases hcc : e.completed
        · exact absurd hcc hc
        · rfl
      simp only [generate_certificate, hc2] at h
      cases hca : e.completed_at <;> simp [hca] at h
    · intro h
      simp [generate_certificate, h]
  · intro h ht
    simp [generate_certificate, h, ht]
  · constructor
    · intro h
      by_contra hc
      have hc2 : e.completed = true := by
        cases hcc : e.completed
        · exact absurd hcc hc
        · rfl
      simp [attempt_certificate_generation, hc2] at h
    · intro h
      simp [attempt_certificate_generation, h]
  · intro h
    simp [attempt_certificate_generation, h]

/-- Witness for C10 at the completed_enrollment and incomplete fixtures. -/
theorem certificate_generation_gated_on_completion_witness :
    generate_certificate completedEnrollment certUser certCourse = CertOutcome.ok
      { certificate_id := "cert_enrollment-123"
        user_name := "John Smith"
        course_title := "3-Day Health Data Bootcamp: Ingest, Transform & Operationalize"
        completion_date := strftimeDate 1700000000
        verification_url := "https://app.com/verify/cert_enrollment-123" } := by
  have h := (certificate_generation_gated_on_completion completedEnrollment
    certUser certCourse 1700000000).2.1 rfl rfl
  exact h

/-- A customer.subscription.created event whose trial_end is present but
equal to 0 (the Unix epoch), a falsy value under Python truthiness. -/
def evSubZeroTrial : Event :=
  { id := "evt_sub_zero"
    type := "customer.subscription.created"
    obj := { id := "sub_zero"
             user_id := "user-123"
             product_sku := "bootcamp_plus"
             trial_end := Option.some 0 } }

/-- Counterexample to C3: the payload contains a trial_end value (0), yet
the created purchase has status active and trial_ends_at None, because the
source tests trial_end with Python truthiness and 0 is falsy. -/
theorem subscription_trial_end_zero_counterexample :
    evSubZeroTrial.obj.trial_end = Option.some 0 ∧
    (process_subscription_webhook 7 evSubZeroTrial []).1.map Purchase.status
      = Option.some "active" ∧
    (process_subscription_webhook 7 evSubZeroTrial []).1.map Purchase.trial_ends_at
      = Option.some Option.none :=
  ⟨rfl, rfl, rfl⟩

/-- C3 amended: for every customer.subscription.created event,
process_subscription_webhook appends exactly one purchase and returns it;
its status is trialing if and only if the payload contains a truthy
(non-null, non-zero) trial_end, in which case trial_ends_at is that
timestamp; otherwise the status is active and trial_ends_at is None; and
the record carries the subscription's id, user_id and product_sku. -/
theorem subscription_created_trial_status (now : Int) (e : Event)
    (db : List Purchase) (h : e.type = "customer.subscription.created") :
    (process_subscription_webhook now e db).2
        = db ++ (process_subscription_webhook now e db).1.toList ∧
    ((process_subscription_webhook now e db).1.map Purchase.status
        = Option.some "trialing" ↔ intTruthy e.obj.trial_end = true) ∧
    (intTruthy e.obj.trial_end = true →
      (process_subscription_webhook now e db).1.map Purchase.trial_ends_at
        = Option.some e.obj.trial_end) ∧
    (intTruthy e.obj.trial_end = false →
      (process_subscription_webhook now e db).1.map Purchase.status
          = Option.some "active" ∧
      (process_subscription_webhook now e db).1.map Purchase.trial_ends_at
          = Option.some Option.none) ∧
    (process_subscription_webhook now e db).1.map Purchase.stripe_subscription_id
        = Option.some (Option.some e.obj.id) ∧
    (process_subscription_webhook now e db).1.map Purchase.user_id
        = Option.some e.obj.user_id ∧
    (process_subscription_webhook now e db).1.map Purchase.product_sku
        = Option.some e.obj.product_sku := by
  simp only [process_subscription_webhook, h, if_pos]
  refine ⟨rfl, ?_, ?_, ?_, rfl, rfl, rfl⟩
  · cases ht : intTruthy e.obj.trial_end <;> simp [ht]
  · intro ht
    simp [ht]
  · intro ht
    simp [ht]

/-- The stripe_subscription_created_payload fixture with a concrete
7-days-from-now trial_end timestamp. -/
def evSubTrial : Event :=
  { id := "evt_test_subscription"
    type := "customer.subscription.created"
    obj := { id := "sub_test123"
             user_id := "user-123"
             product_sku := "bootcamp_plus"
             trial_end := Option.some 1700604800 } }

/-- Witness for C3 at the subscription fixture with a non-zero trial_end. -/
theorem subscription_created_trial_status_witness :
    (process_subscription_webhook 9 evSubTrial []).1.map Purchase.status
        = Option.some "trialing" ∧
    (process_subscription_webhook 9 evSubTrial []).1.map Purchase.trial_ends_at
        = Option.some (Option.some 1700604800) := by
  have h := subscription_created_trial_status 9 evSubTrial [] rfl
  exact ⟨h.2.1.mpr rfl, h.2.2.1 rfl⟩

/-- After process_webhook_idempotent handles an event, the event's id is in
the recorded set of processed event ids. -/
theorem processed_id_recorded (e : Event) (st : WebhookState) :
    e.id ∈ (process_webhook_idempotent e st).2.processedEvents := by
  simp only [process_webhook_idempotent]
  by_cases h : e.id ∈ st.processedEvents
  · rw [if_pos h]
    exact h
  · rw [if_neg h]
    by_cases ht : e.type = "checkout.session.completed"
    · rw [if_pos ht]
      exact List.mem_cons_self _ _
    · rw [if_neg ht]
      exact List.mem_cons_self _ _

/-- The recorded set of processed event ids only grows: processing any
event preserves membership. -/
theorem processed_ids_monotone (x : String) (e : Event) (st : WebhookState)
    (h : x ∈ st.processedEvents) :
    x ∈ (process_webhook_idempotent e st).2.processedEvents := by
  simp only [process_webhook_idempotent]
  by_cases hd : e.id ∈ st.processedEvents
  · rw [if_pos hd]
    exact h
  · rw [if_neg hd]
    by_cases ht : e.type = "checkout.session.completed"
    · rw [if_pos ht]
      exact List.mem_cons_of_mem _ h
    · rw [if_neg ht]
      exact List.mem_cons_of_mem _ h

/-- Membership in the processed-event set survives any sequence of
subsequent webhook calls. -/
theorem processed_ids_monotone_fold (x : String) (es : List Event)
    (st : WebhookState) (h : x ∈ st.processedEvents) :
    x ∈ (es.foldl (fun s ev => (process_webhook_idempotent ev s).2) st).processedEvents := by
  induction es generalizing st with
  | nil => exact h
  | cons e rest ih =>
    exact ih _ (processed_ids_monotone x e st h)

/-- A call with an already seen event id returns already_processed and
leaves the state untouched. -/
theorem duplicate_call_noop (e : Event) (st : WebhookState)
    (h : e.id ∈ st.processedEvents) :
    process_webhook_idempotent e st = (IdemResult.alreadyProcessed, st) := by
  unfold process_webhook_idempotent
  rw [if_pos h]

/-- C1: webhook processing is idempotent per event id: once an event has
been processed, every subsequent call with an event carrying the same id
(after any interleaved sequence of other calls) returns already_processed
and leaves the whole state, in particular the purchases database with its
length and records, unchanged. -/
theorem webhook_idempotent_per_event_id (st : WebhookState) (e e2 : Event)
    (es : List Event) (h : e2.id = e.id) :
    process_webhook_idempotent e2
        (es.foldl (fun s ev => (process_webhook_idempotent ev s).2)
          (process_webhook_idempotent e st).2)
      = (IdemResult.alreadyProcessed,
         es.foldl (fun s ev => (process_webhook_idempotent ev s).2)
           (process_webhook_idempotent e st).2) := by
  apply duplicate_call_noop
  rw [h]
  exact processed_ids_monotone_fold e.id es _ (processed_id_recorded e st)

/-- Witness for C1: replaying the checkout fixture event immediately after
it was first processed from the empty state. -/
theorem webhook_idempotent_per_event_id_witness :
    process_webhook_idempotent evCheckout
        (List.foldl (fun s ev => (process_webhook_idempotent ev s).2)
          (process_webhook_idempotent evCheckout { processedEvents := [], purchases := [] }).2 [])
      = (IdemResult.alreadyProcessed,
         List.foldl (fun s ev => (process_webhook_idempotent ev s).2)
           (process_webhook_idempotent evCheckout { processedEvents := [], purchases := [] }).2 []) :=
  webhook_idempotent_per_event_id { processedEvents := [], purchases := [] }
    evCheckout evCheckout [] rfl

/-- C4: on a customer.subscription.deleted event, for every purchases
database containing a purchase whose stripe_subscription_id equals the
event's subscription id (written as the prefix of non-matching purchases,
the first matching purchase q, and the remainder), the handler sets q's
status to cancelled and its cancelled_at from the event's canceled_at,
returns the updated record, and leaves q's other fields and every other
purchase unchanged. -/
theorem cancellation_updates_matching_purchase (e : Event)
    (l1 l2 : List Purchase) (q : Purchase)
    (h : e.type = "customer.subscription.deleted")
    (h1 : ∀ r ∈ l1, r.stripe_subscription_id ≠ Option.some e.obj.id)
    (h2 : q.stripe_subscription_id = Option.some e.obj.id) :
    process_cancellation_webhook e (l1 ++ q :: l2)
      = (Option.some { q with status := "cancelled",
                              cancelled_at := Option.some e.obj.canceled_at },
         l1 ++ { q with status := "cancelled",
                        cancelled_at := Option.some e.obj.canceled_at } :: l2) := by
  simp only [process_cancellation_webhook, h, if_pos]
  induction l1 with
  | nil =>
    simp only [List.nil_append, cancelFirst, if_pos h2]
  | cons a rest ih =>
    have ha : a.stripe_subscription_id ≠ Option.some e.obj.id :=
      h1 a (List.mem_cons_self a rest)
    have hrest : ∀ r ∈ rest, r.stripe_subscription_id ≠ Option.some e.obj.id :=
      fun r hr => h1 r (List.mem_cons_of_mem a hr)
    have ihr := ih hrest
    simp only [List.cons_append, cancelFirst, if_neg ha, List.append_eq] at ihr ⊢
    rw [ihr]

/-- Concrete customer.subscription.deleted event, from the
stripe_subscription_cancelled_payload fixture. -/
def evCancel : Event :=
  { id := "evt_test_cancel"
    type := "customer.subscription.deleted"
    obj := { id := "sub_test123"
             user_id := "user-123"
             product_sku := "bootcamp_plus"
             canceled_at := 1700500000 } }

/-- The existing active subscription purchase from
test_subscription_cancelled_state_transition. -/
def existingPurchase : Purchase :=
  { id := "purchase_sub_test123"
    user_id := "user-123"
    product_sku := "bootcamp_plus"
    stripe_subscription_id := Option.some "sub_test123"
    status := "active"
    created_at := 1699000000 }

/-- The expected result of cancelling existingPurchase at the fixture's
canceled_at timestamp. -/
def cancelledPurchase : Purchase :=
  { existingPurchase with status := "cancelled", cancelled_at := Option.some 1700500000 }

/-- Witness for C4 at the cancellation fixture. -/
theorem cancellation_updates_matching_purchase_witness :
    process_cancellation_webhook evCancel ([] ++ existingPurchase :: [])
      = (Option.some cancelledPurchase, [] ++ cancelledPurchase :: []) :=
  cancellation_updates_matching_purchase evCancel [] [] existingPurchase rfl
    (by simp) rfl

/-- A trialing purchase whose trial ended at time 50. -/
def expiredTrialA : Purchase :=
  { id := "purchase_trial_a"
    user_id := "user-123"
    product_sku := "bootcamp_plus"
    stripe_subscription_id := Option.some "sub_a"
    status := "trialing"
    trial_ends_at := Option.some 50
    created_at := 0 }

/-- A second trialing purchase whose trial ended at time 60. -/
def expiredTrialB : Purchase :=
  { id := "purchase_trial_b"
    user_id := "user-456"
    product_sku := "bootcamp_plus"
    stripe_subscription_id := Option.some "sub_b"
    status := "trialing"
    trial_ends_at := Option.some 60
    created_at := 0 }

/-- Counterexample to C5: at time 100 both purchases are expired trialing
purchases, yet after one call of check_trial_expiration the second still has
status trialing, because the loop returns after transitioning the first. -/
theorem trial_expiration_second_expired_counterexample :
    trialExpired 100 expiredTrialB = true ∧
    ((check_trial_expiration 100 [expiredTrialA, expiredTrialB]).2).map Purchase.status
      = ["past_due", "trialing"] := by
  refine ⟨by decide, by decide⟩

/-- C5 amended: check_trial_expiration transitions to past_due exactly the
first purchase (in database order) that is trialing with a non-empty
trial_ends_at strictly before the current time, returns it, and leaves
every other purchase unchanged, including any later purchase that also
satisfies those conditions; when no purchase satisfies them, it returns
None and the database is unchanged. -/
theorem trial_expiration_first_match_only (now : Int) (db l1 l2 : List Purchase)
    (q : Purchase) :
    ((∀ p ∈ db, trialExpired now p = false) →
      check_trial_expiration now db = (Option.none, db)) ∧
    ((∀ p ∈ l1, trialExpired now p = false) → trialExpired now q = true →
      check_trial_expiration now (l1 ++ q :: l2)
        = (Option.some { q with status := "past_due" },
           l1 ++ { q with status := "past_due" } :: l2)) := by
  constructor
  · intro hall
    induction db with
    | nil => rfl
    | cons a rest ih =>
      have ha : trialExpired now a = false := hall a (List.mem_cons_self a rest)
      have hrest : ∀ p ∈ rest, trialExpired now p = false :=
        fun p hp => hall p (List.mem_cons_of_mem a hp)
      have ihr := ih hrest
      simp only [check_trial_expiration, ha, Bool.false_eq_true, if_neg, ihr]
      simp
  · intro h1 hq
    induction l1 with
    | nil =>
      simp only [List.nil_append, check_trial_expiration, hq, if_pos]
    | cons a rest ih =>
      have ha : trialExpired now a = false := h1 a (List.mem_cons_self a rest)
      have hrest : ∀ p ∈ rest, trialExpired now p = false :=
        fun p hp => h1 p (List.mem_cons_of_mem a hp)
      have ihr := ih hrest
      simp only [List.cons_append, check_trial_expiration, ha, Bool.false_eq_true,
        if_neg, List.append_eq] at ihr ⊢
      rw [ihr]
      simp

/-- The expired trialing purchase after its past_due transition. -/
def pastDueTrialA : Purchase :=
  { expiredTrialA with status := "past_due" }

/-- Witness for C5: behind an active purchase, the expired trialing
purchase is transitioned; a database with no expired trial is unchanged. -/
theorem trial_expiration_first_match_only_witness :
    check_trial_expiration 100 ([existingPurchase] ++ expiredTrialA :: [])
      = (Option.some pastDueTrialA, [existingPurchase] ++ pastDueTrialA :: []) ∧
    check_trial_expiration 100 [existingPurchase]
      = (Option.none, [existingPurchase]) :=
  ⟨(trial_expiration_first_match_only 100 [] [existingPurchase] [] expiredTrialA).2
      (by decide) (by decide),
   (trial_expiration_first_match_only 100 [existingPurchase] [] [] expiredTrialA).1
      (by decide)⟩

/-- C8: row-level-security read isolation: get_user_enrollments returns
exactly the enrollments of the session's user, in original order (a sublist
of the database), so an enrollment is in the result exactly when it is in
the database and belongs to the session's user; and a cross-user access
attempt for any other user's id returns nothing. -/
theorem rls_read_isolation (s : Session) (db : List Enrollment)
    (e : Enrollment) (target : String) :
    (e ∈ get_user_enrollments s db ↔ e ∈ db ∧ e.user_id = s.user_id) ∧
    (get_user_enrollments s db).Sublist db ∧
    (target ≠ s.user_id → attempt_cross_user_access s target db = []) := by
  refine ⟨?_, ?_, ?_⟩
  · simp [get_user_enrollments, List.mem_filter]
  · exact List.filter_sublist db
  · intro ht
    simp only [attempt_cross_user_access]
    rw [List.filter_eq_nil_iff]
    intro a ha
    have ha2 : a.user_id = s.user_id := by
      have := (List.mem_filter.mp ha).2
      simpa using this
    simp only [beq_iff_eq, ha2]
    exact fun hc => ht (hc.symm)

/-- Enrollment fixture record for user A (enrollment-001). -/
def rlsEnr1 : Enrollment :=
  { id := "enrollment-001"
    user_id := "user-aaa-111"
    course_slug := "health-data-bootcamp"
    progress := { completed_steps := 8, total_steps := 10 }
    completed := false }

/-- Enrollment fixture record for user B (enrollment-002), completed, with
a certificate URL. -/
def rlsEnr2 : Enrollment :=
  { id := "enrollment-002"
    user_id := "user-bbb-222"
    course_slug := "health-data-bootcamp"
    progress := { completed_steps := 10, total_steps := 10 }
    completed := true
    certificate_url := Option.some "https://cdn.app.com/certs/cert-002.pdf" }

/-- Second enrollment fixture record for user A (enrollment-003). -/
def rlsEnr3 : Enrollment :=
  { id := "enrollment-003"
    user_id := "user-aaa-111"
    course_slug := "health-data-bootcamp"
    progress := { completed_steps := 5, total_steps := 15 }
    completed := false }

/-- The enrollment_database fixture of rls_smoke_tests.py. -/
def rlsDb : List Enrollment := [rlsEnr1, rlsEnr2, rlsEnr3]

/-- The user_a_session fixture. -/
def sessionA : Session := { user_id := "user-aaa-111", role := "user" }

/-- Witness for C8 at the RLS fixture database and user A's session. -/
theorem rls_read_isolation_witness :
    (rlsEnr2 ∈ get_user_enrollments sessionA rlsDb
        ↔ rlsEnr2 ∈ rlsDb ∧ rlsEnr2.user_id = sessionA.user_id) ∧
    (get_user_enrollments sessionA rlsDb).Sublist rlsDb ∧
    attempt_cross_user_access sessionA "user-bbb-222" rlsDb = [] := by
  have h := rls_read_isolation sessionA rlsDb rlsEnr2 "user-bbb-222"
  exact ⟨h.1, h.2.1, h.2.2 (by decide)⟩

/-- Finding by id in a list whose prefix has no matching id yields the
first match. -/
theorem find_first_enrollment (eid : String) (l1 : List Enrollment)
    (e : Enrollment) (l2 : List Enrollment)
    (h1 : ∀ x ∈ l1, x.id ≠ eid) (he : e.id = eid) :
    (l1 ++ e :: l2).find? (fun x => x.id == eid) = Option.some e := by
  induction l1 with
  | nil =>
    simp only [List.nil_append]
    exact List.find?_cons_of_pos _ (by simp [he])
  | cons a rest ih =>
    have ha : a.id ≠ eid := h1 a (List.mem_cons_self a rest)
    have hrest : ∀ x ∈ rest, x.id ≠ eid :=
      fun x hx => h1 x (List.mem_cons_of_mem a hx)
    rw [List.cons_append, List.find?_cons_of_neg _ (by simp [ha])]
    exact ih hrest

/-- Replacing by id in a list whose prefix has no matching id replaces the
first match. -/
theorem replace_first_enrollment (eid : String) (e2 : Enrollment)
    (l1 : List Enrollment) (e : Enrollment) (l2 : List Enrollment)
    (h1 : ∀ x ∈ l1, x.id ≠ eid) (he : e.id = eid) :
    replaceFirstById eid e2 (l1 ++ e :: l2) = l1 ++ e2 :: l2 := by
  induction l1 with
  | nil =>
    simp only [List.nil_append, replaceFirstById]
    rw [if_pos (by simp [he])]
  | cons a rest ih =>
    have ha : a.id ≠ eid := h1 a (List.mem_cons_self a rest)
    have hrest : ∀ x ∈ rest, x.id ≠ eid :=
      fun x hx => h1 x (List.mem_cons_of_mem a hx)
    simp only [List.cons_append, replaceFirstById]
    rw [if_neg (by simp [ha])]
    simp only [List.append_eq]
    rw [ih hrest]

/-- C9: row-level-security update denial is atomic: when no enrollment has
the requested id the result is the Enrollment-not-found failure and the
database is unchanged; when the enrollment exists (first match after a
prefix of non-matching ids) but belongs to a different user the result is
the Access-denied failure and the database is unchanged; only when it
belongs to the session's user are the updates applied, to that record
alone. -/
theorem rls_update_denial_atomic (s : Session) (eid : String)
    (u : EnrollmentUpdates) (db l1 l2 : List Enrollment) (e : Enrollment) :
    ((∀ x ∈ db, x.id ≠ eid) →
      update_enrollment s eid u db
        = ({ success := false, error := Option.some "Enrollment not found" }, db)) ∧
    ((∀ x ∈ l1, x.id ≠ eid) → e.id = eid → e.user_id ≠ s.user_id →
      update_enrollment s eid u (l1 ++ e :: l2)
        = ({ success := false, error := Option.some "Access denied" }, l1 ++ e :: l2)) ∧
    ((∀ x ∈ l1, x.id ≠ eid) → e.id = eid → e.user_id = s.user_id →
      update_enrollment s eid u (l1 ++ e :: l2)
        = ({ success := true, enrollment := Option.some (applyUpdates e u) },
           l1 ++ applyUpdates e u :: l2)) := by
  refine ⟨?_, ?_, ?_⟩
  · intro hall
    have hf : db.find? (fun x => x.id == eid) = Option.none :=
      List.find?_eq_none.mpr (fun x hx => by simp [hall x hx])
    simp only [update_enrollment, hf]
  · intro h1 he hu
    have hf := find_first_enrollment eid l1 e l2 h1 he
    have hb : (e.user_id == s.user_id) = false := by simp [hu]
    simp only [update_enrollment, hf, hb, Bool.false_eq_true, if_neg]
    simp
  · intro h1 he hu
    have hf := find_first_enrollment eid l1 e l2 h1 he
    have hb : (e.user_id == s.user_id) = true := by simp [hu]
    simp only [update_enrollment, hf, hb, if_pos]
    rw [replace_first_enrollment eid (applyUpdates e u) l1 e l2 h1 he]

/-- The updates dict of the cross-user update attempt in the tests. -/
def updSetIncomplete : EnrollmentUpdates := { completed := Option.some false }

/-- Witness for C9: at the RLS fixture database, an unknown id is not
found, user A is denied on user B's enrollment, and user A's own
enrollment is updated. -/
theorem rls_update_denial_atomic_witness :
    update_enrollment sessionA "enrollment-999" updSetIncomplete rlsDb
      = ({ success := false, error := Option.some "Enrollment not found" }, rlsDb) ∧
    update_enrollment sessionA "enrollment-002" updSetIncomplete rlsDb
      = ({ success := false, error := Option.some "Access denied" }, rlsDb) ∧
    update_enrollment sessionA "enrollment-001" updSetIncomplete rlsDb
      = ({ success := true,
           enrollment := Option.some (applyUpdates rlsEnr1 updSetIncomplete) },
         applyUpdates rlsEnr1 updSetIncomplete :: [rlsEnr2, rlsEnr3]) := by
  refine ⟨?_, ?_, ?_⟩
  · exact (rls_update_denial_atomic sessionA "enrollment-999" updSetIncomplete
      rlsDb [] [] rlsEnr1).1 (by decide)
  · exact (rls_update_denial_atomic sessionA "enrollment-002" updSetIncomplete
      rlsDb [rlsEnr1] [rlsEnr3] rlsEnr2).2.1 (by decide) rfl (by decide)
  · exact (rls_update_denial_atomic sessionA "enrollment-001" updSetIncomplete
      rlsDb [] [rlsEnr2, rlsEnr3] rlsEnr1).2.2 (by decide) rfl rfl
